import Mathlib

/-!
Verification of the HydPy excerpt: the dam_v002 application model's method
registry and integration-test tables, the ELS solver parameter declarations,
the XML-driven workflow of xmltools.run_simulation, and the sequence-store
contracts (ram activation, series access, condition round-trips).

Numbers from the source are embedded as exact rationals.
-/

namespace HydPy

/-! ### Method registry of the dam_v002 application model

Embeds `class Model(modeltools.ELSModel)` from src/hydpy/models/dam_v002.py:
the seven ordered method-group tuples, the SOLVERPARAMETERS tuple, and the
SUBMODELS tuple, exactly as declared there. -/

/-- The process methods of hydpy.models.dam.dam_model referenced
by dam_v002. -/
inductive DamMethodName where
  | Calc_AdjustedEvaporation_V1
  | Pic_Inflow_V1
  | Calc_RequiredRemoteRelease_V2
  | Calc_RequiredRelease_V1
  | Calc_TargetedRelease_V1
  | Pic_LoggedRequiredRemoteRelease_V1
  | Calc_AdjustedPrecipitation_V1
  | Calc_WaterLevel_V1
  | Calc_ActualEvaporation_V1
  | Calc_ActualRelease_V1
  | Calc_FloodDischarge_V1
  | Calc_Outflow_V1
  | Update_WaterVolume_V1
  | Pass_Outflow_V1
deriving DecidableEq, Repr

/-- The solver parameters of hydpy.models.dam.dam_solver referenced
by dam_v002. -/
inductive DamSolverParameterName where
  | AbsErrorMax
  | RelErrorMax
  | RelDTMin
  | RelDTMax
deriving DecidableEq, Repr

/-- The class-level declarations an ELSModel subclass such as
dam_v002.Model exposes: the solver-parameter tuple and the seven ordered
method-group tuples (modelled as ordered lists). -/
structure ELSModelClass where
  SOLVERPARAMETERS : List DamSolverParameterName
  INLET_METHODS : List DamMethodName
  RECEIVER_METHODS : List DamMethodName
  ADD_METHODS : List DamMethodName
  PART_ODE_METHODS : List DamMethodName
  FULL_ODE_METHODS : List DamMethodName
  OUTLET_METHODS : List DamMethodName
  SENDER_METHODS : List DamMethodName
deriving DecidableEq, Repr

/-- `class Model(modeltools.ELSModel)` of src/hydpy/models/dam_v002.py,
lines 335-366. -/
def dam_v002_Model : ELSModelClass where
  SOLVERPARAMETERS :=
    [ DamSolverParameterName.AbsErrorMax,
      DamSolverParameterName.RelErrorMax,
      DamSolverParameterName.RelDTMin,
      DamSolverParameterName.RelDTMax ]
  INLET_METHODS :=
    [ DamMethodName.Calc_AdjustedEvaporation_V1,
      DamMethodName.Pic_Inflow_V1,
      DamMethodName.Calc_RequiredRemoteRelease_V2,
      DamMethodName.Calc_RequiredRelease_V1,
      DamMethodName.Calc_TargetedRelease_V1 ]
  RECEIVER_METHODS := [DamMethodName.Pic_LoggedRequiredRemoteRelease_V1]
  ADD_METHODS := []
  PART_ODE_METHODS :=
    [ DamMethodName.Calc_AdjustedPrecipitation_V1,
      DamMethodName.Pic_Inflow_V1,
      DamMethodName.Calc_WaterLevel_V1,
      DamMethodName.Calc_ActualEvaporation_V1,
      DamMethodName.Calc_ActualRelease_V1,
      DamMethodName.Calc_FloodDischarge_V1,
      DamMethodName.Calc_Outflow_V1 ]
  FULL_ODE_METHODS := [DamMethodName.Update_WaterVolume_V1]
  OUTLET_METHODS := [DamMethodName.Pass_Outflow_V1]
  SENDER_METHODS := []

/-! ### Solver parameter declarations

Embeds src/hydpy/models/wland/wland_solver.py: each SolverParameter
subclass declares NDIM, SPAN and INIT (TYPE is always float and TIME
always None there, so both are left implicit). -/

/-- The class-level declarations of a scalar SolverParameter subclass:
dimensionality, admissible span (either bound optional), and default
(initial) value. -/
structure SolverParameterClass where
  NDIM : ℕ
  SPAN : Option ℚ × Option ℚ
  INIT : ℚ
deriving DecidableEq, Repr

/-- `class AbsErrorMax(parametertools.SolverParameter)` of
src/hydpy/models/wland/wland_solver.py: NDIM = 0, SPAN = (0.0, None),
INIT = 0.01. -/
def AbsErrorMax : SolverParameterClass where
  NDIM := 0
  SPAN := (some 0, none)
  INIT := 0.01

/-- `class RelErrorMax(parametertools.SolverParameter)` of
src/hydpy/models/wland/wland_solver.py: NDIM = 0, SPAN = (0.0, None),
INIT = 0.01. -/
def RelErrorMax : SolverParameterClass where
  NDIM := 0
  SPAN := (some 0, none)
  INIT := 0.01

/-- `class RelDTMin(parametertools.SolverParameter)` of
src/hydpy/models/wland/wland_solver.py: NDIM = 0, SPAN = (0.0, 1.0),
INIT = 0.0. -/
def RelDTMin : SolverParameterClass where
  NDIM := 0
  SPAN := (some 0, some 1)
  INIT := 0

/-- `class RelDTMax(parametertools.SolverParameter)` of
src/hydpy/models/wland/wland_solver.py: NDIM = 0, SPAN = (0.0, 1.0),
INIT = 1.0. -/
def RelDTMax : SolverParameterClass where
  NDIM := 0
  SPAN := (some 0, some 1)
  INIT := 1

/-- A value lies within the admissible span of a solver parameter
(an absent bound constrains nothing). -/
def inSpan (p : SolverParameterClass) (x : ℚ) : Bool :=
  (match p.SPAN.1 with
   | none => true
   | some lo => decide (lo ≤ x)) &&
  (match p.SPAN.2 with
   | none => true
   | some hi => decide (x ≤ hi))

/-- One concrete assignment of values to the four solver parameters of an
ELS model. -/
structure SolverParameterValues where
  abserrormax : ℚ
  relerrormax : ℚ
  reldtmin : ℚ
  reldtmax : ℚ
deriving DecidableEq, Repr

/-- Each of the four values lies within the span its parameter class
declares. -/
def withinSpans (v : SolverParameterValues) : Bool :=
  inSpan AbsErrorMax v.abserrormax && inSpan RelErrorMax v.relerrormax &&
    inSpan RelDTMin v.reldtmin && inSpan RelDTMax v.reldtmax

/-- The solver parameter values every ELS model starts from: the INIT
values of the four parameter classes. -/
def defaultSolverValues : SolverParameterValues where
  abserrormax := AbsErrorMax.INIT
  relerrormax := RelErrorMax.INIT
  reldtmin := RelDTMin.INIT
  reldtmax := RelDTMax.INIT

/-! ### Integration-test scenarios recorded in dam_v002.py

The docstring of src/hydpy/models/dam_v002.py fixes, for each integration
test, the input time series, the initial conditions, and the expected
result table.  The columns relevant to the claims are embedded below as
exact rationals, exactly as printed in the source. -/

/-- Inflow series of the dam_v002 smooth-near-minimum example:
`inflow.sequences.sim.series = 1.0` over the twenty-day timegrid. -/
def smoothNearMinimumInflow : List ℚ := List.replicate 20 1

/-- Precipitation series of the dam_v002 smooth-near-minimum example:
`inputs.precipitation.series = 0.0`. -/
def smoothNearMinimumPrecipitation : List ℚ := List.replicate 20 0

/-- Evaporation series of the dam_v002 smooth-near-minimum example:
`inputs.evaporation.series = 0.0`. -/
def smoothNearMinimumEvaporation : List ℚ := List.replicate 20 0

/-- Initial water volume of the dam_v002 examples:
`test.inits = ((states.watervolume, 0.0), ...)`. -/
def dam_v002_InitialWaterVolume : ℚ := 0

/-- Outflow column of the result table of the dam_v002
smooth-near-minimum integration test (lines 114-133 of dam_v002.py). -/
def smoothNearMinimumOutflow : List ℚ :=
  [ 0.201754, 0.21092, 0.211084, 0.211523, 0.213209, 0.219043, 0.283419,
    0.475211, 0.73528, 0.891314, 0.69675, 0.366407, 0.228241, 0.230054,
    0.286374, 0.279807, 0.21805, 0.211893, 0.210904, 0.210435 ]

/-- Inflow series of the dam_v002 flood-retention example:
`inflow.sequences.sim.series = [0.0, 0.0, 5.0, 9.0, 8.0, 5.0, 3.0, 2.0,
1.0, 0.0, ...]`. -/
def floodRetentionInflow : List ℚ :=
  [0, 0, 5, 9, 8, 5, 3, 2, 1, 0, 0, 0, 0, 0, 0, 0, 0, 0, 0, 0]

/-- Precipitation series of the dam_v002 flood-retention example:
`inputs.precipitation.series = [0.0, 50.0, 0.0, ...]`. -/
def floodRetentionPrecipitation : List ℚ :=
  [0, 50, 0, 0, 0, 0, 0, 0, 0, 0, 0, 0, 0, 0, 0, 0, 0, 0, 0, 0]

/-- Evaporation series of the dam_v002 flood-retention example:
`inputs.evaporation.series = 0.0` (reset after the evaporation example). -/
def floodRetentionEvaporation : List ℚ := List.replicate 20 0

/-- Outflow column of the result table of the dam_v002 flood-retention
integration test (lines 302-321 of dam_v002.py). -/
def floodRetentionOutflow : List ℚ :=
  [ 0.0, 0.026514, 0.183744, 0.542983, 0.961039, 1.251523, 1.395546,
    1.453375, 1.455596, 1.405132, 1.331267, 1.261285, 1.194981, 1.132163,
    1.072647, 1.01626, 0.962837, 0.912222, 0.864268, 0.818835 ]

/-- A twenty-day dam_v002 scenario matches the conditions of claim C1:
constant unit inflow, zero evaporation and precipitation, and zero
initial water volume. -/
def constantUnitInflowScenario (inflow precipitation evaporation : List ℚ)
    (initialWaterVolume : ℚ) : Bool :=
  inflow.all (· = 1) && precipitation.all (· = 0) &&
    evaporation.all (· = 0) && initialWaterVolume = 0

/-- The first entry of an outflow column lies within the given absolute
tolerance of the given value. -/
def firstOutflowWithin (outflow : List ℚ) (x tol : ℚ) : Bool :=
  |outflow.headD 0 - x| ≤ tol

/-! ### The workflow of xmltools.run_simulation

Embeds `def run_simulation(projectname, xmlfile)` of
src/hydpy/auxs/xmltools.py, lines 186-224, as the ordered list of workflow
operations the function body invokes. -/

/-- The workflow operations invoked by xmltools.run_simulation. -/
inductive WorkflowOperation where
  | startProject
  | readConfigFile
  | updateOptions
  | updateTimegrids
  | prepareNetwork
  | updateDevices
  | initModels
  | loadConditions
  | prepareSeries
  | loadSeries
  | doit
  | saveConditions
  | saveSeries
deriving DecidableEq, Repr

/-- The operations run_simulation performs for a given project name and
XML configuration file, in the order of its source lines (the function
body is straight-line code, so the trace does not depend on the
arguments). -/
def run_simulation (projectname xmlfile : String) : List WorkflowOperation :=
  [ WorkflowOperation.startProject,
    WorkflowOperation.readConfigFile,
    WorkflowOperation.updateOptions,
    WorkflowOperation.updateTimegrids,
    WorkflowOperation.prepareNetwork,
    WorkflowOperation.updateDevices,
    WorkflowOperation.initModels,
    WorkflowOperation.loadConditions,
    WorkflowOperation.prepareSeries,
    WorkflowOperation.loadSeries,
    WorkflowOperation.doit,
    WorkflowOperation.saveConditions,
    WorkflowOperation.saveSeries ]

/-! ### The sequence store: ram buffering and series access

The IOSequence machinery (hydpy.core.sequencetools) is not part of this
excerpt; only its callers (xmltools) and its contract in the spec are.
The definitions below are therefore modelled from the spec, section 4.1. -/

/-- Modelled from the spec: the observable state of an IOSequence
(hydpy.core.sequencetools is missing from the excerpt): its current
value, the length its time-series buffer takes when allocated, the
activation flag, and the buffer itself (meaningful only while active). -/
structure IOSequence where
  value : ℚ
  seriesLength : ℕ
  ramflag : Bool
  buffer : List ℚ
deriving DecidableEq, Repr

/-- Modelled from the spec: `activate_ram` allocates the time-series
buffer on demand and sets the activation flag; activating an
already-active sequence is a no-op (hydpy.core.sequencetools is missing
from the excerpt). -/
def activate_ram (s : IOSequence) : IOSequence :=
  if s.ramflag then s
  else { s with ramflag := true, buffer := List.replicate s.seriesLength 0 }

/-- Modelled from the spec: `deactivate_ram` clears the buffer and the
activation flag (hydpy.core.sequencetools is missing from the
excerpt). -/
def deactivate_ram (s : IOSequence) : IOSequence :=
  { s with ramflag := false, buffer := [] }

/-- The error raised when un-activated time-series storage is read. -/
inductive BufferError where
  | unavailableBuffer
deriving DecidableEq, Repr

/-- Modelled from the spec: reading `series` returns the buffered history
when ram is active and fails immediately with an UnavailableBufferError
otherwise, in both cases leaving the sequence unchanged
(hydpy.core.sequencetools is missing from the excerpt). -/
def seriesAccess (s : IOSequence) :
    Except BufferError (List ℚ) × IOSequence :=
  if s.ramflag then (Except.ok s.buffer, s)
  else (Except.error BufferError.unavailableBuffer, s)

/-! ### Condition snapshots: save_conditions / load_conditions

XMLConditions.save_conditions and XMLConditions.load_conditions
(src/hydpy/auxs/xmltools.py, lines 704-758) set the condition manager's
current directory and then delegate the per-element persisting to
model.sequences.save_conditions / load_conditions, which belong to
hydpy.core.sequencetools and are missing from the excerpt; the snapshot
store below is therefore modelled from the spec, section 4.1. -/

/-- A model's state-sequence values, keyed by sequence name. -/
abbrev StateValues := List (String × List ℚ)

/-- Modelled from the spec: the condition manager's persisted snapshots,
keyed by the logical date label (the current directory) and the sequence
name. -/
abbrev ConditionStore := List ((String × String) × List ℚ)

/-- Look up the snapshot saved under the given directory label and
sequence name (the most recently saved one wins). -/
def lookupCondition : ConditionStore → String × String → Option (List ℚ)
  | [], _ => none
  | (k, v) :: rest, key =>
    if k = key then some v else lookupCondition rest key

/-- Modelled from the spec: `save_conditions` persists a snapshot of
every state sequence under the current directory label
(hydpy.core.sequencetools is missing from the excerpt). -/
def save_conditions (dir : String) (states : StateValues)
    (store : ConditionStore) : ConditionStore :=
  (states.map fun s => ((dir, s.1), s.2)) ++ store

/-- Modelled from the spec: `load_conditions` overwrites every state
sequence with the snapshot persisted under the current directory label,
leaving sequences without a persisted snapshot untouched
(hydpy.core.sequencetools is missing from the excerpt). -/
def load_conditions (dir : String) (store : ConditionStore)
    (states : StateValues) : StateValues :=
  states.map fun s => (s.1, (lookupCondition store (dir, s.1)).getD s.2)

/-! ### The shape of the lland log sequence WEvI

Embeds `class WEvI(sequencetools.LogSequence)` of
src/hydpy/models/lland/lland_logs.py, lines 9-30. -/

/-- The stored shape of a two-dimensional log sequence (the base class
LogSequence keeps whatever tuple its shape setter receives). -/
structure LogSequenceShape where
  shape : ℕ × ℕ
deriving DecidableEq, Repr

/-- The shape setter of the base class LogSequence: store the given
tuple. -/
def logSequenceSetShape (s : LogSequenceShape) (sh : ℕ × ℕ) :
    LogSequenceShape :=
  { s with shape := sh }

/-- NDIM of lland_logs.WEvI. -/
def weviNDIM : ℕ := 2

/-- NUMERIC of lland_logs.WEvI. -/
def weviNUMERIC : Bool := false

/-- The shape setter of WEvI: `super()._set_shape((1, shape))`, so the
first axis always gets length one. -/
def weviSetShape (s : LogSequenceShape) (shape : ℕ) : LogSequenceShape :=
  logSequenceSetShape s (1, shape)

/-- The shape getter of WEvI: `super()._get_shape()` returns the stored
tuple. -/
def weviGetShape (s : LogSequenceShape) : ℕ × ℕ := s.shape

/-! ### The adaptive sub-stepping of the ELS integrator

The integrator itself (hydpy.core.modeltools.ELSModel) is missing from
the excerpt; the sub-step acceptance loop below is modelled from the
spec, section 4.3, steps 2-7.  The local error estimate is abstracted
into a function from the current relative time and the attempted
relative sub-step size to the normalized error. -/

/-- How a sub-step got accepted: by meeting the tolerance, or
force-accepted at the minimum step size because the tolerance could not
be met (spec section 4.3, step 7). -/
inductive StepKind where
  | tolerance
  | forced
deriving DecidableEq, Repr

/-- Modelled from the spec: the sub-step acceptance loop for one
attempt, steps 4-5 and 7 of section 4.3.  Accept the attempted size when
the normalized error is at most one; when the size is already at the
minimum, force-accept it; otherwise halve the size (bounded below by the
minimum) and retry.  The fuel bounds the number of retries; exhausted
fuel yields no sub-step. -/
def selectSubstep (err : ℚ → ℚ) (dtmin : ℚ) : ℕ → ℚ → Option (StepKind × ℚ)
  | 0, _ => none
  | fuel + 1, dt =>
    if err dt ≤ 1 then some (StepKind.tolerance, dt)
    else if dt ≤ dtmin then some (StepKind.forced, dt)
    else selectSubstep err dtmin fuel (max (dt / 2) dtmin)

/-- Modelled from the spec: the outer sub-stepping loop over one
external step (section 4.3, steps 2-6), in relative time running from
the given start to one.  Each iteration attempts a sub-step of at most
the maximum relative size, clipped so that the external step boundary is
hit exactly, and records the accepted sub-step as (kind, start time,
size).  The fuel bounds the number of iterations. -/
def integrateSubsteps (err : ℚ → ℚ → ℚ) (dtmin dtmax : ℚ) :
    ℕ → ℚ → List (StepKind × ℚ × ℚ)
  | 0, _ => []
  | fuel + 1, t =>
    if 1 ≤ t then []
    else
      match selectSubstep (err t) dtmin (fuel + 1) (min dtmax (1 - t)) with
      | none => []
      | some (k, d) =>
        (k, t, d) :: integrateSubsteps err dtmin dtmax fuel (t + d)

/-! ### Theorems -/

/-- C3: the dam_v002 application model exposes all seven ordered
method-group tuples INLET_METHODS, RECEIVER_METHODS, ADD_METHODS,
PART_ODE_METHODS, FULL_ODE_METHODS, OUTLET_METHODS and SENDER_METHODS,
with ADD_METHODS and SENDER_METHODS empty, and its Solver Parameter Set
consists exactly of AbsErrorMax, RelErrorMax, RelDTMin and RelDTMax. -/
theorem dam_v002_method_groups_and_solver_set :
    dam_v002_Model.SOLVERPARAMETERS =
      [ DamSolverParameterName.AbsErrorMax, DamSolverParameterName.RelErrorMax,
        DamSolverParameterName.RelDTMin, DamSolverParameterName.RelDTMax ] ∧
    dam_v002_Model.INLET_METHODS =
      [ DamMethodName.Calc_AdjustedEvaporation_V1, DamMethodName.Pic_Inflow_V1,
        DamMethodName.Calc_RequiredRemoteRelease_V2,
        DamMethodName.Calc_RequiredRelease_V1,
        DamMethodName.Calc_TargetedRelease_V1 ] ∧
    dam_v002_Model.RECEIVER_METHODS =
      [DamMethodName.Pic_LoggedRequiredRemoteRelease_V1] ∧
    dam_v002_Model.ADD_METHODS = [] ∧
    dam_v002_Model.PART_ODE_METHODS =
      [ DamMethodName.Calc_AdjustedPrecipitation_V1, DamMethodName.Pic_Inflow_V1,
        DamMethodName.Calc_WaterLevel_V1, DamMethodName.Calc_ActualEvaporation_V1,
        DamMethodName.Calc_ActualRelease_V1, DamMethodName.Calc_FloodDischarge_V1,
        DamMethodName.Calc_Outflow_V1 ] ∧
    dam_v002_Model.FULL_ODE_METHODS = [DamMethodName.Update_WaterVolume_V1] ∧
    dam_v002_Model.OUTLET_METHODS = [DamMethodName.Pass_Outflow_V1] ∧
    dam_v002_Model.SENDER_METHODS = [] := by
  decide

/-- C4: AbsErrorMax and RelErrorMax are scalar parameters with span
bounded below by 0 and unbounded above and default 0.01; RelDTMin and
RelDTMax are scalar parameters with span [0, 1] and defaults 0.0 and 1.0
respectively. -/
theorem solver_parameter_declarations :
    (AbsErrorMax.NDIM = 0 ∧ AbsErrorMax.SPAN = (some 0, none) ∧
      AbsErrorMax.INIT = 0.01) ∧
    (RelErrorMax.NDIM = 0 ∧ RelErrorMax.SPAN = (some 0, none) ∧
      RelErrorMax.INIT = 0.01) ∧
    (RelDTMin.NDIM = 0 ∧ RelDTMin.SPAN = (some 0, some 1) ∧
      RelDTMin.INIT = 0) ∧
    (RelDTMax.NDIM = 0 ∧ RelDTMax.SPAN = (some 0, some 1) ∧
      RelDTMax.INIT = 1) :=
  ⟨⟨rfl, rfl, rfl⟩, ⟨rfl, rfl, rfl⟩, ⟨rfl, rfl, rfl⟩, ⟨rfl, rfl, rfl⟩⟩

/-- C5, counterexample: values within all declared spans need not satisfy
RelDTMin ≤ RelDTMax; the assignment (0.01, 0.01, 1, 0) is within all
spans and violates the invariant. -/
theorem solver_spans_do_not_force_reldt_order :
    ¬ ∀ v : SolverParameterValues,
        withinSpans v = true → v.reldtmin ≤ v.reldtmax := by
  intro h
  have hin : withinSpans ⟨0.01, 0.01, 1, 0⟩ = true := by
    simp only [withinSpans, inSpan, AbsErrorMax, RelErrorMax, RelDTMin,
      RelDTMax, Bool.and_eq_true, decide_eq_true_eq]
    norm_num
  have := h ⟨0.01, 0.01, 1, 0⟩ hin
  norm_num at this

/-- C5, amended: the declared spans bound RelDTMin and RelDTMax within
[0, 1] for every in-span Solver Parameter Set, and the default values
(0.01, 0.01, 0.0, 1.0) lie within all spans and do satisfy
RelDTMin ≤ RelDTMax; the spans alone do not enforce the invariant. -/
theorem solver_values_within_spans_bounds (v : SolverParameterValues)
    (h : withinSpans v = true) :
    (0 ≤ v.reldtmin ∧ v.reldtmin ≤ 1) ∧
    (0 ≤ v.reldtmax ∧ v.reldtmax ≤ 1) ∧
    withinSpans defaultSolverValues = true ∧
    defaultSolverValues.reldtmin ≤ defaultSolverValues.reldtmax := by
  simp only [withinSpans, inSpan, AbsErrorMax, RelErrorMax, RelDTMin, RelDTMax,
    Bool.and_eq_true, decide_eq_true_eq] at h
  refine ⟨⟨h.1.2.1, h.1.2.2⟩, ⟨h.2.1, h.2.2⟩, ?_, ?_⟩
  · simp only [withinSpans, inSpan, defaultSolverValues, AbsErrorMax,
      RelErrorMax, RelDTMin, RelDTMax, Bool.and_eq_true, decide_eq_true_eq]
    norm_num
  · simp only [defaultSolverValues, RelDTMin, RelDTMax]
    norm_num

/-- C5, witness: the amended statement applied to the default solver
parameter values. -/
theorem solver_values_within_spans_bounds_witness :
    (0 ≤ defaultSolverValues.reldtmin ∧ defaultSolverValues.reldtmin ≤ 1) ∧
    (0 ≤ defaultSolverValues.reldtmax ∧ defaultSolverValues.reldtmax ≤ 1) ∧
    withinSpans defaultSolverValues = true ∧
    defaultSolverValues.reldtmin ≤ defaultSolverValues.reldtmax :=
  solver_values_within_spans_bounds defaultSolverValues (by
    simp only [withinSpans, inSpan, defaultSolverValues, AbsErrorMax,
      RelErrorMax, RelDTMin, RelDTMax, Bool.and_eq_true, decide_eq_true_eq]
    norm_num)

/-- C6: for every project name and XML configuration file, run_simulation
invokes prepare_network, init_models, load_conditions, doit and
save_conditions exactly once each and strictly in that relative order. -/
theorem run_simulation_workflow_order (projectname xmlfile : String) :
    ((run_simulation projectname xmlfile).count
        WorkflowOperation.prepareNetwork = 1 ∧
      (run_simulation projectname xmlfile).count
        WorkflowOperation.initModels = 1 ∧
      (run_simulation projectname xmlfile).count
        WorkflowOperation.loadConditions = 1 ∧
      (run_simulation projectname xmlfile).count
        WorkflowOperation.doit = 1 ∧
      (run_simulation projectname xmlfile).count
        WorkflowOperation.saveConditions = 1) ∧
    ((run_simulation projectname xmlfile).indexOf
        WorkflowOperation.prepareNetwork <
      (run_simulation projectname xmlfile).indexOf
        WorkflowOperation.initModels ∧
      (run_simulation projectname xmlfile).indexOf
        WorkflowOperation.initModels <
      (run_simulation projectname xmlfile).indexOf
        WorkflowOperation.loadConditions ∧
      (run_simulation projectname xmlfile).indexOf
        WorkflowOperation.loadConditions <
      (run_simulation projectname xmlfile).indexOf
        WorkflowOperation.doit ∧
      (run_simulation projectname xmlfile).indexOf
        WorkflowOperation.doit <
      (run_simulation projectname xmlfile).indexOf
        WorkflowOperation.saveConditions) := by
  simp only [run_simulation]
  decide

/-- C6, witness: the workflow-order statement at the LahnH example
project and its single-run configuration file. -/
theorem run_simulation_workflow_order_witness :
    ((run_simulation "LahnH" "single_run.xml").count
        WorkflowOperation.prepareNetwork = 1 ∧
      (run_simulation "LahnH" "single_run.xml").count
        WorkflowOperation.initModels = 1 ∧
      (run_simulation "LahnH" "single_run.xml").count
        WorkflowOperation.loadConditions = 1 ∧
      (run_simulation "LahnH" "single_run.xml").count
        WorkflowOperation.doit = 1 ∧
      (run_simulation "LahnH" "single_run.xml").count
        WorkflowOperation.saveConditions = 1) ∧
    ((run_simulation "LahnH" "single_run.xml").indexOf
        WorkflowOperation.prepareNetwork <
      (run_simulation "LahnH" "single_run.xml").indexOf
        WorkflowOperation.initModels ∧
      (run_simulation "LahnH" "single_run.xml").indexOf
        WorkflowOperation.initModels <
      (run_simulation "LahnH" "single_run.xml").indexOf
        WorkflowOperation.loadConditions ∧
      (run_simulation "LahnH" "single_run.xml").indexOf
        WorkflowOperation.loadConditions <
      (run_simulation "LahnH" "single_run.xml").indexOf
        WorkflowOperation.doit ∧
      (run_simulation "LahnH" "single_run.xml").indexOf
        WorkflowOperation.doit <
      (run_simulation "LahnH" "single_run.xml").indexOf
        WorkflowOperation.saveConditions) :=
  run_simulation_workflow_order "LahnH" "single_run.xml"

/-- C8: activating ram twice leaves a sequence in the same state as
activating it once, and activating ram for an already-active sequence is
a no-op on the sequence's observable state. -/
theorem activate_ram_idempotent (s : IOSequence) :
    activate_ram (activate_ram s) = activate_ram s ∧
    (s.ramflag = true → activate_ram s = s) := by
  constructor
  · by_cases h : s.ramflag <;> simp [activate_ram, h]
  · intro h
    simp [activate_ram, h]

/-- C8, witness: the idempotence statement at a concrete already-active
sequence. -/
theorem activate_ram_idempotent_witness :
    activate_ram (activate_ram ⟨1, 2, true, [0, 0]⟩) =
      activate_ram ⟨1, 2, true, [0, 0]⟩ ∧
    activate_ram ⟨1, 2, true, [0, 0]⟩ = (⟨1, 2, true, [0, 0]⟩ : IOSequence) :=
  ⟨(activate_ram_idempotent ⟨1, 2, true, [0, 0]⟩).1,
   (activate_ram_idempotent ⟨1, 2, true, [0, 0]⟩).2 rfl⟩

/-- C9: accessing the series buffer fails with an UnavailableBufferError
if and only if ram buffering has not been activated, and the access
leaves the sequence's state unchanged. -/
theorem series_access_error_iff_not_activated (s : IOSequence) :
    ((seriesAccess s).1 = Except.error BufferError.unavailableBuffer ↔
      s.ramflag = false) ∧
    (seriesAccess s).2 = s := by
  by_cases h : s.ramflag <;> simp [seriesAccess, h]

/-- C9, witness: the series-access statement at a concrete non-activated
sequence. -/
theorem series_access_error_iff_not_activated_witness :
    ((seriesAccess ⟨0, 1, false, []⟩).1 =
        Except.error BufferError.unavailableBuffer ↔
      (⟨0, 1, false, []⟩ : IOSequence).ramflag = false) ∧
    (seriesAccess ⟨0, 1, false, []⟩).2 = (⟨0, 1, false, []⟩ : IOSequence) :=
  series_access_error_iff_not_activated ⟨0, 1, false, []⟩

/-- C10: assigning a positive integer n to the shape of the lland log
sequence WEvI sets its actual shape to (1, n), so the first axis always
has length one. -/
theorem wevi_shape_first_axis_one (s : LogSequenceShape) (n : ℕ)
    (h : 0 < n) :
    weviGetShape (weviSetShape s n) = (1, n) ∧
    (weviGetShape (weviSetShape s n)).1 = 1 :=
  ⟨rfl, rfl⟩

/-- C10, witness: assigning shape 3 to WEvI yields actual shape (1, 3),
as in the doctest of lland_logs.WEvI. -/
theorem wevi_shape_first_axis_one_witness :
    0 < 3 ∧
    (weviGetShape (weviSetShape ⟨(5, 5)⟩ 3) = (1, 3) ∧
      (weviGetShape (weviSetShape ⟨(5, 5)⟩ 3)).1 = 1) :=
  ⟨by decide, wevi_shape_first_axis_one ⟨(5, 5)⟩ 3 (by decide)⟩

/-- C1, counterexample: the dam_v002 flood-retention example does not
realize the claimed scenario-result pair: its recorded outflow after
step 1 is 0.0, which is not within 1e-5 of 0.201754 (its inflow is also
not constantly 1.0 and its precipitation not zero). -/
theorem flood_retention_first_outflow_differs :
    ¬ (constantUnitInflowScenario floodRetentionInflow
         floodRetentionPrecipitation floodRetentionEvaporation
         dam_v002_InitialWaterVolume = true ∧
       firstOutflowWithin floodRetentionOutflow 0.201754 (1 / 100000) =
         true) := by
  rintro ⟨-, h⟩
  norm_num [firstOutflowWithin, floodRetentionOutflow, abs_le] at h

/-- C1, amended: the dam_v002 smooth-near-minimum example realizes the
claimed scenario — constant unit inflow, zero evaporation and
precipitation, initial water volume zero — and its recorded outflow
after step 1 equals 0.201754 within an absolute tolerance of 1e-5. -/
theorem smooth_near_minimum_first_outflow :
    constantUnitInflowScenario smoothNearMinimumInflow
      smoothNearMinimumPrecipitation smoothNearMinimumEvaporation
      dam_v002_InitialWaterVolume = true ∧
    firstOutflowWithin smoothNearMinimumOutflow 0.201754 (1 / 100000) =
      true := by
  constructor
  · simp [constantUnitInflowScenario, smoothNearMinimumInflow,
      smoothNearMinimumPrecipitation, smoothNearMinimumEvaporation,
      dam_v002_InitialWaterVolume, List.all_eq_true, List.mem_replicate]
  · norm_num [firstOutflowWithin, smoothNearMinimumOutflow]

/-- C2, counterexample: when the tolerance cannot be met even at the
minimum sub-step size, the integrator force-accepts a sub-step whose
normalized error exceeds one; with a constant error estimate of 2 and a
minimum relative step of 1, the accepted sub-step has error 2 > 1. -/
theorem forced_substep_error_above_one :
    ¬ (∀ (err : ℚ → ℚ → ℚ) (dtmin dtmax : ℚ) (fuel : ℕ) (k : StepKind)
          (t d : ℚ),
        (k, t, d) ∈ integrateSubsteps err dtmin dtmax fuel 0 →
          err t d ≤ 1) := by
  intro h
  have htrace : integrateSubsteps (fun _ _ => (2 : ℚ)) 1 1 2 0 =
      [(StepKind.forced, 0, 1)] := by
    norm_num [integrateSubsteps, selectSubstep]
  have hmem : (StepKind.forced, (0 : ℚ), (1 : ℚ)) ∈
      integrateSubsteps (fun _ _ => (2 : ℚ)) 1 1 2 0 := by
    rw [htrace]
    exact List.mem_singleton_self _
  have h2 := h (fun _ _ => 2) 1 1 2 StepKind.forced 0 1 hmem
  norm_num at h2

/-- A sub-step the acceptance loop returns with the tolerance kind meets
the tolerance. -/
theorem selectSubstep_tolerance_le_one (e : ℚ → ℚ) (dtmin : ℚ)
    (fuel : ℕ) :
    ∀ dt d, selectSubstep e dtmin fuel dt =
        some (StepKind.tolerance, d) → e d ≤ 1 := by
  induction fuel with
  | zero =>
    intro dt d h
    simp [selectSubstep] at h
  | succ n ih =>
    intro dt d h
    simp only [selectSubstep] at h
    split_ifs at h with h1 h2
    · simp only [Option.some.injEq, Prod.mk.injEq] at h
      exact h.2 ▸ h1
    · simp at h
    · exact ih _ d h

/-- C2, amended: every sub-step the adaptive integrator accepts through
the tolerance test (not force-accepted at the minimum sub-step size)
has a normalized local error estimate of at most one. -/
theorem tolerance_substep_error_le_one (err : ℚ → ℚ → ℚ)
    (dtmin dtmax : ℚ) (fuel : ℕ) (t₀ t d : ℚ)
    (h : (StepKind.tolerance, t, d) ∈
      integrateSubsteps err dtmin dtmax fuel t₀) :
    err t d ≤ 1 := by
  induction fuel generalizing t₀ with
  | zero =>
    simp [integrateSubsteps] at h
  | succ n ih =>
    simp only [integrateSubsteps] at h
    by_cases h1 : (1 : ℚ) ≤ t₀
    · rw [if_pos h1] at h
      simp at h
    · rw [if_neg h1] at h
      rcases heq : selectSubstep (err t₀) dtmin (n + 1)
          (min dtmax (1 - t₀)) with _ | ⟨k, d'⟩
      · rw [heq] at h
        simp at h
      · rw [heq] at h
        dsimp only at h
        rcases List.mem_cons.mp h with hhead | htail
        · simp only [Prod.mk.injEq] at hhead
          obtain ⟨hk, ht, hd⟩ := hhead
          subst ht
          subst hd
          rw [← hk] at heq
          exact selectSubstep_tolerance_le_one (err t) dtmin (n + 1) _ d
            heq
        · exact ih _ htail

/-- C2, witness: the amended statement at a constant zero error
estimate, where the single sub-step covering the external step is
accepted through the tolerance test. -/
theorem tolerance_substep_error_le_one_witness : (0 : ℚ) ≤ 1 :=
  tolerance_substep_error_le_one (fun _ _ => 0) 0 1 2 0 0 1 (by
    have htrace : integrateSubsteps (fun _ _ => (0 : ℚ)) 0 1 2 0 =
        [(StepKind.tolerance, 0, 1)] := by
      norm_num [integrateSubsteps, selectSubstep]
    rw [htrace]
    exact List.mem_singleton_self _)

/-- C7: saving conditions and then loading them back, without modifying
the state sequences in between, reproduces the original values exactly
(the state sequences carry distinct names). -/
theorem save_load_conditions_roundtrip (dir : String)
    (store : ConditionStore) (states : StateValues)
    (h : (states.map Prod.fst).Nodup) :
    load_conditions dir (save_conditions dir states store) states =
      states := by
  induction states with
  | nil => rfl
  | cons s rest ih =>
    obtain ⟨n, v⟩ := s
    simp only [List.map_cons, List.nodup_cons] at h
    obtain ⟨hn, hrest⟩ := h
    have hstep : ∀ s ∈ rest,
        (s.1, (lookupCondition
            (save_conditions dir ((n, v) :: rest) store) (dir, s.1)).getD
          s.2) =
        (s.1, (lookupCondition
            (save_conditions dir rest store) (dir, s.1)).getD s.2) := by
      intro s hs
      have hne : ((dir, n) : String × String) ≠ (dir, s.1) := by
        intro hcontra
        have h2 : n = s.1 := congrArg Prod.snd hcontra
        apply hn
        rw [h2]
        exact List.mem_map_of_mem Prod.fst hs
      simp [save_conditions, lookupCondition, hne]
    simp only [load_conditions, List.map_cons]
    congr 1
    · simp [save_conditions, lookupCondition]
    · calc rest.map _
          = rest.map (fun s =>
              (s.1, (lookupCondition
                (save_conditions dir rest store) (dir, s.1)).getD s.2)) :=
            List.map_congr_left hstep
        _ = rest := ih hrest

/-- C7, witness: the round-trip statement at two concretely named state
sequences. -/
theorem save_load_conditions_roundtrip_witness :
    load_conditions "init_1996_01_06"
      (save_conditions "init_1996_01_06"
        [("sm", [185, 181]), ("lz", [8])] [])
      [("sm", [185, 181]), ("lz", [8])] =
      [("sm", [185, 181]), ("lz", [8])] :=
  save_load_conditions_roundtrip "init_1996_01_06" []
    [("sm", [185, 181]), ("lz", [8])] (by simp)

end HydPy
